import Mathlib

set_option linter.all false

/-! Verification development for the DeviceRegistry component
(`src/main/device_registry.h`): a shallow embedding of its data model and
operations, followed by theorems settling the specification's claims.
The mutex is elided (every public operation is one atomic critical section);
the Settings persistence collaborator is modelled as a string key-value map
plus an explicit trace of `SetString`/`EraseKey` calls, and the cJSON
collaborator as an inductive JSON value type. -/

/-- Durable record of a paired device, mirroring `struct DeviceProfile`
with its C++ member initializers as defaults. -/
structure DeviceProfile where
  device_id : String := ""
  mac_address : String := ""
  label : String := ""
  description : String := ""
  transport_hint : String := ""
  allow_audio : Bool := true
  allow_notifications : Bool := true
  is_primary : Bool := false
  deriving DecidableEq, Repr

/-- Transient record of a live transport session, mirroring
`DeviceRegistry::SessionInfo` with its C++ member initializers as defaults. -/
structure SessionInfo where
  session_id : String := ""
  device_id : String := ""
  label : String := ""
  transport : String := ""
  supports_udp : Bool := false
  supports_mcp : Bool := false
  is_active : Bool := false
  is_preferred : Bool := false
  deriving DecidableEq, Repr

/-- JSON values, standing in for the external cJSON collaborator's tree. -/
inductive Json where
  | null : Json
  | bool (b : Bool) : Json
  | num (n : Int) : Json
  | str (s : String) : Json
  | arr (items : List Json) : Json
  | obj (fields : List (String × Json)) : Json

/-- One call made to the Settings persistence collaborator. -/
inductive PersistEvent where
  | setString (key value : String) : PersistEvent
  | eraseKey (key : String) : PersistEvent
  deriving DecidableEq, Repr

/-- Storage key for the serialized profile array (`kProfilesKey`). -/
def kProfilesKey : String := "profiles"

/-- Storage key for the preferred session id (`kPreferredSessionKey`). -/
def kPreferredSessionKey : String := "preferred_session"

/-- Association-list lookup keyed by strings; stands in for both
`std::unordered_map::find` and the Settings store lookup. -/
def alookup {α : Type} : List (String × α) → String → Option α
  | [], _ => none
  | (k, v) :: rest, key => if k = key then some v else alookup rest key

/-- `NormalizeMacAddress`: drop `:` and `-` separators and uppercase
every remaining character. -/
def NormalizeMacAddress (mac_address : String) : String :=
  String.mk (mac_address.data.filterMap (fun ch =>
    if ch = ':' ∨ ch = '-' then none else some ch.toUpper))

/-- `NormalizeProfile`: a profile with its MAC address normalized. -/
def NormalizeProfile (profile : DeviceProfile) : DeviceProfile :=
  { profile with mac_address := NormalizeMacAddress profile.mac_address }

/-- The matching predicate of `AddOrUpdateProfile`: equal non-empty MACs when
both sides carry one, else equal non-empty device ids when both sides carry
one, else no match. -/
def profileMatches (normalized candidate : DeviceProfile) : Bool :=
  if normalized.mac_address ≠ "" ∧ candidate.mac_address ≠ "" then
    normalized.mac_address == candidate.mac_address
  else if normalized.device_id ≠ "" ∧ candidate.device_id ≠ "" then
    normalized.device_id == candidate.device_id
  else
    false

/-- The `find_if`/replace-or-`push_back` step of `AddOrUpdateProfile`:
replace the first matching profile, or append when none matches. -/
def upsertProfile (profiles : List DeviceProfile) (normalized : DeviceProfile) :
    List DeviceProfile :=
  match profiles with
  | [] => [normalized]
  | p :: rest =>
    if profileMatches normalized p then normalized :: rest
    else p :: upsertProfile rest normalized

/-- JSON string escaping of one character, standing in for the external
cJSON printer's escaping. -/
def escapeJsonChar (c : Char) : String :=
  if c = '"' then "\\\""
  else if c = '\\' then "\\\\"
  else if c = '\n' then "\\n"
  else if c = '\r' then "\\r"
  else if c = '\t' then "\\t"
  else String.singleton c

/-- JSON string escaping, standing in for the external cJSON printer. -/
def escapeJsonString (s : String) : String :=
  String.join (s.data.map escapeJsonChar)

mutual

/-- Unformatted JSON printing, standing in for `cJSON_PrintUnformatted`. -/
def renderJson : Json → String
  | Json.null => "null"
  | Json.bool true => "true"
  | Json.bool false => "false"
  | Json.num n => toString n
  | Json.str s => "\"" ++ escapeJsonString s ++ "\""
  | Json.arr items => "[" ++ renderJsonItems items ++ "]"
  | Json.obj fields => "\x7b" ++ renderJsonFields fields ++ "\x7d"

/-- Comma-separated rendering of JSON array elements. -/
def renderJsonItems : List Json → String
  | [] => ""
  | [item] => renderJson item
  | item :: rest => renderJson item ++ "," ++ renderJsonItems rest

/-- Comma-separated rendering of JSON object members. -/
def renderJsonFields : List (String × Json) → String
  | [] => ""
  | [field] => "\"" ++ escapeJsonString field.1 ++ "\":" ++ renderJson field.2
  | field :: rest =>
    "\"" ++ escapeJsonString field.1 ++ "\":" ++ renderJson field.2 ++ "," ++
      renderJsonFields rest

end

/-- `SerializeProfile`: the JSON object written for one profile. -/
def SerializeProfile (profile : DeviceProfile) : Json :=
  Json.obj
    [("device_id", Json.str profile.device_id),
     ("mac", Json.str profile.mac_address),
     ("label", Json.str profile.label),
     ("description", Json.str profile.description),
     ("transport_hint", Json.str profile.transport_hint),
     ("allow_audio", Json.bool profile.allow_audio),
     ("allow_notifications", Json.bool profile.allow_notifications),
     ("is_primary", Json.bool profile.is_primary)]

/-- Settings store with one key removed (`Settings::EraseKey`). -/
def kvErase (kv : List (String × String)) (key : String) :
    List (String × String) :=
  kv.filter (fun entry => entry.1 != key)

/-- Settings store with one key overwritten (`Settings::SetString`). -/
def kvSet (kv : List (String × String)) (key value : String) :
    List (String × String) :=
  (key, value) :: kvErase kv key

/-- Effect of one persistence call on the Settings store. -/
def applyEvent (kv : List (String × String)) : PersistEvent → List (String × String)
  | PersistEvent.setString key value => kvSet kv key value
  | PersistEvent.eraseKey key => kvErase kv key

/-- Effect of a sequence of persistence calls on the Settings store. -/
def applyEvents (kv : List (String × String)) (events : List PersistEvent) :
    List (String × String) :=
  events.foldl applyEvent kv

/-- The registry's guarded state: profile list, session map (an association
list standing in for `std::unordered_map`, keys unique by construction),
preferred session id, and the Settings store under namespace `devices`. -/
structure RegistryState where
  profiles : List DeviceProfile
  sessions : List (String × SessionInfo)
  preferred_session_id : String
  kv : List (String × String)
  deriving DecidableEq, Repr

/-- `PersistPreferredSessionLocked`: erase the key when the preferred id is
empty, write the id otherwise. -/
def PersistPreferredSessionEvent (preferred : String) : PersistEvent :=
  if preferred = "" then PersistEvent.eraseKey kPreferredSessionKey
  else PersistEvent.setString kPreferredSessionKey preferred

/-- `PersistProfilesLocked`: write the serialized profile array. -/
def PersistProfilesEvent (profiles : List DeviceProfile) : PersistEvent :=
  PersistEvent.setString kProfilesKey
    (renderJson (Json.arr (profiles.map SerializeProfile)))

/-- `DeviceRegistry::AddOrUpdateProfile`: normalize, replace the first
matching profile or append, persist, and return true. -/
def AddOrUpdateProfile (st : RegistryState) (profile : DeviceProfile) :
    Bool × RegistryState × List PersistEvent :=
  let normalized := NormalizeProfile profile
  let profiles' := upsertProfile st.profiles normalized
  let events := [PersistProfilesEvent profiles']
  (true, { st with profiles := profiles', kv := applyEvents st.kv events }, events)

/-- `DeviceRegistry::RemoveProfileByMac`: drop every profile with the
normalized MAC; persist only when something was removed. -/
def RemoveProfileByMac (st : RegistryState) (mac_address : String) :
    Bool × RegistryState × List PersistEvent :=
  let normalized_mac := NormalizeMacAddress mac_address
  let profiles' := st.profiles.filter (fun p => p.mac_address != normalized_mac)
  if profiles'.length = st.profiles.length then (false, st, [])
  else
    let events := [PersistProfilesEvent profiles']
    (true, { st with profiles := profiles', kv := applyEvents st.kv events }, events)

/-- `DeviceRegistry::RemoveProfileById`: drop every profile with the device
id; persist only when something was removed. -/
def RemoveProfileById (st : RegistryState) (device_id : String) :
    Bool × RegistryState × List PersistEvent :=
  let profiles' := st.profiles.filter (fun p => p.device_id != device_id)
  if profiles'.length = st.profiles.length then (false, st, [])
  else
    let events := [PersistProfilesEvent profiles']
    (true, { st with profiles := profiles', kv := applyEvents st.kv events }, events)

/-- `DeviceRegistry::GetProfileByMac`: first profile with the normalized MAC. -/
def GetProfileByMac (st : RegistryState) (mac_address : String) :
    Option DeviceProfile :=
  st.profiles.find? (fun p => p.mac_address == NormalizeMacAddress mac_address)

/-- `DeviceRegistry::GetProfileById`: first profile with the device id. -/
def GetProfileById (st : RegistryState) (device_id : String) :
    Option DeviceProfile :=
  st.profiles.find? (fun p => p.device_id == device_id)

/-- The ingest loop of `UpdateSessions`: skip entries with empty
`session_id`, record the first active entry's id as detected-active, and
`emplace` each entry (which keeps an already-present key unchanged). -/
def IngestSessions :
    List SessionInfo → List (String × SessionInfo) → String →
      List (String × SessionInfo) × String
  | [], acc, detected_active => (acc, detected_active)
  | session :: rest, acc, detected_active =>
    if session.session_id = "" then
      IngestSessions rest acc detected_active
    else
      let detected' :=
        if session.is_active ∧ detected_active = "" then session.session_id
        else detected_active
      let acc' :=
        if (alookup acc session.session_id).isSome then acc
        else acc ++ [(session.session_id, session)]
      IngestSessions rest acc' detected'

/-- Validity check of `UpdateSessions` (step 3): a non-empty preferred id
absent from the new map is cleared, and the clearing is persisted. -/
def ClearStalePreferred (preferred : String)
    (m : List (String × SessionInfo)) : String × List PersistEvent :=
  if preferred ≠ "" ∧ alookup m preferred = none then
    ("", [PersistPreferredSessionEvent ""])
  else
    (preferred, [])

/-- Auto-selection of `UpdateSessions` (step 4): when no preferred id is set,
pick the detected-active id, else the first input entry's id, else stay
empty; persist only a non-empty assignment. -/
def AutoSelectPreferred (preferred : String) (detected_active : String)
    (sessions : List SessionInfo) : String × List PersistEvent :=
  if preferred = "" then
    let candidate :=
      if detected_active ≠ "" then detected_active
      else
        match sessions with
        | [] => ""
        | s :: _ => s.session_id
    (candidate,
     if candidate ≠ "" then [PersistPreferredSessionEvent candidate] else [])
  else
    (preferred, [])

/-- `DeviceRegistry::UpdateSessions`: rebuild the session map, clear a
preferred id that is no longer present (persisting the clearing), auto-select
a preferred id when none is set (persisting a non-empty assignment), and
recompute every stored `is_preferred` flag. -/
def UpdateSessions (st : RegistryState) (sessions : List SessionInfo) :
    RegistryState × List PersistEvent :=
  let built := IngestSessions sessions [] ""
  let cleared := ClearStalePreferred st.preferred_session_id built.1
  let selected := AutoSelectPreferred cleared.1 built.2 sessions
  let preferred := selected.1
  let m' :=
    built.1.map (fun kv => (kv.1, { kv.2 with is_preferred := kv.1 == preferred }))
  let events := cleared.2 ++ selected.2
  ({ st with
      sessions := m'
      preferred_session_id := preferred
      kv := applyEvents st.kv events },
   events)

/-- `DeviceRegistry::FindSession`: exact lookup in the session map. -/
def FindSession (st : RegistryState) (session_id : String) : Option SessionInfo :=
  alookup st.sessions session_id

/-- `DeviceRegistry::SetPreferredSession`: fail on an unknown id; otherwise
set the preferred id, recompute every `is_preferred` flag, and persist. -/
def SetPreferredSession (st : RegistryState) (session_id : String) :
    Bool × RegistryState × List PersistEvent :=
  match alookup st.sessions session_id with
  | none => (false, st, [])
  | some _ =>
    let m' :=
      st.sessions.map (fun kv => (kv.1, { kv.2 with is_preferred := kv.1 == session_id }))
    let events := [PersistPreferredSessionEvent session_id]
    (true,
     { st with
        sessions := m'
        preferred_session_id := session_id
        kv := applyEvents st.kv events },
     events)

/-- The comparator passed to `std::sort` by `GetSessions`: preferred first,
then active, then ascending session id. -/
def sessionLt (lhs rhs : SessionInfo) : Bool :=
  if lhs.is_preferred ≠ rhs.is_preferred then lhs.is_preferred && !rhs.is_preferred
  else if lhs.is_active ≠ rhs.is_active then lhs.is_active && !rhs.is_active
  else decide (lhs.session_id < rhs.session_id)

/-- Reflexive closure of the `GetSessions` comparator: `lhs` may precede
`rhs` in the sorted output. -/
def sessionLe (lhs rhs : SessionInfo) : Prop := sessionLt rhs lhs = false

instance : DecidableRel sessionLe := fun a b =>
  inferInstanceAs (Decidable (sessionLt b a = false))

/-- `DeviceRegistry::GetSessions`: snapshot of the session map values sorted
with the three-level comparator. Stored session ids are distinct, so the
comparator admits exactly one sorted arrangement and the embedding by
insertion sort coincides with any `std::sort` implementation. -/
def GetSessions (st : RegistryState) : List SessionInfo :=
  List.insertionSort sessionLe (st.sessions.map Prod.snd)

/-- Character-wise ASCII lowercasing, mirroring the per-character `tolower`
used by cJSON's case-insensitive member comparison. -/
def lowerAscii (s : String) : String :=
  String.mk (s.data.map Char.toLower)

/-- `cJSON_GetObjectItem`: first member whose name matches case-insensitively. -/
def GetObjectItem (fields : List (String × Json)) (name : String) : Option Json :=
  (fields.find? (fun field => lowerAscii field.1 == lowerAscii name)).map Prod.snd

/-- String payload of a JSON value when it is a string (`cJSON_IsString`). -/
def jsonString : Option Json → Option String
  | some (Json.str s) => some s
  | _ => none

/-- Boolean payload of a JSON value when it is a bool (`cJSON_IsBool`). -/
def jsonBool : Option Json → Option Bool
  | some (Json.bool b) => some b
  | _ => none

/-- `ParseProfile`: read each field from the JSON object when present with
the right type, keep the C++ default otherwise, then normalize. -/
def ParseProfile (fields : List (String × Json)) : DeviceProfile :=
  NormalizeProfile
    { device_id := (jsonString (GetObjectItem fields "device_id")).getD ""
      mac_address := (jsonString (GetObjectItem fields "mac")).getD ""
      label := (jsonString (GetObjectItem fields "label")).getD ""
      description := (jsonString (GetObjectItem fields "description")).getD ""
      transport_hint := (jsonString (GetObjectItem fields "transport_hint")).getD ""
      allow_audio := (jsonBool (GetObjectItem fields "allow_audio")).getD true
      allow_notifications :=
        (jsonBool (GetObjectItem fields "allow_notifications")).getD true
      is_primary := (jsonBool (GetObjectItem fields "is_primary")).getD false }

/-- `DeviceRegistry::LoadProfilesLocked` as a function of the stored string
and of the external parser (`cJSON_Parse`, modelled as an oracle): an empty
stored value or an unparsable root yields no profiles; an array root yields
one profile per object element, skipping non-objects; any other root yields
no profiles. -/
def LoadProfiles (parse : String → Option Json) (stored : String) :
    List DeviceProfile :=
  if stored = "" then []
  else
    match parse stored with
    | none => []
    | some root =>
      match root with
      | Json.arr items =>
        items.filterMap (fun item =>
          match item with
          | Json.obj fields => some (ParseProfile fields)
          | _ => none)
      | _ => []

/-- One public mutating operation of the registry. -/
inductive RegistryOp where
  | addOrUpdateProfile (profile : DeviceProfile) : RegistryOp
  | removeProfileByMac (mac_address : String) : RegistryOp
  | removeProfileById (device_id : String) : RegistryOp
  | updateSessions (sessions : List SessionInfo) : RegistryOp
  | setPreferredSession (session_id : String) : RegistryOp

/-- State reached after one public mutating operation. -/
def applyOp (st : RegistryState) : RegistryOp → RegistryState
  | RegistryOp.addOrUpdateProfile profile => (AddOrUpdateProfile st profile).2.1
  | RegistryOp.removeProfileByMac mac => (RemoveProfileByMac st mac).2.1
  | RegistryOp.removeProfileById id => (RemoveProfileById st id).2.1
  | RegistryOp.updateSessions sessions => (UpdateSessions st sessions).1
  | RegistryOp.setPreferredSession id => (SetPreferredSession st id).2.1

/-- State reached after a sequence of public mutating operations. -/
def runOps (st : RegistryState) (ops : List RegistryOp) : RegistryState :=
  ops.foldl applyOp st

/-- State right after construction: loaded profiles and preferred id as given
by the Settings store, and an empty session map. -/
def initState (profiles : List DeviceProfile) (preferred : String)
    (kv : List (String × String)) : RegistryState :=
  { profiles := profiles, sessions := [], preferred_session_id := preferred,
    kv := kv }

/-! Association-list lookup lemmas. -/

theorem alookup_append {α : Type} (l r : List (String × α)) (key : String) :
    alookup (l ++ r) key = (alookup l key).orElse (fun _ => alookup r key) := by
  induction l with
  | nil => simp [alookup, Option.orElse]
  | cons kv rest ih =>
    obtain ⟨k, v⟩ := kv
    by_cases h : k = key
    · simp [alookup, h, Option.orElse]
    · simp [alookup, h, ih]

theorem alookup_map_value {α β : Type} (m : List (String × α))
    (f : String → α → β) (key : String) :
    alookup (m.map (fun kv => (kv.1, f kv.1 kv.2))) key =
      (alookup m key).map (f key) := by
  induction m with
  | nil => simp [alookup]
  | cons kv rest ih =>
    by_cases h : kv.1 = key
    · simp [alookup, h]
    · simp [alookup, h, ih]

theorem alookup_some_mem {α : Type} {m : List (String × α)} {key : String}
    {v : α} (h : alookup m key = some v) : (key, v) ∈ m := by
  induction m with
  | nil => simp [alookup] at h
  | cons kv rest ih =>
    obtain ⟨k, w⟩ := kv
    by_cases hk : k = key
    · simp [alookup, hk] at h
      subst hk
      subst h
      exact List.mem_cons_self _ _
    · simp [alookup, hk] at h
      exact List.mem_cons_of_mem _ (ih h)

theorem alookup_isSome_iff {α : Type} (m : List (String × α)) (key : String) :
    (alookup m key).isSome ↔ key ∈ m.map Prod.fst := by
  induction m with
  | nil => simp [alookup]
  | cons kv rest ih =>
    obtain ⟨k, w⟩ := kv
    by_cases hk : k = key
    · simp [alookup, hk]
    · simp [alookup, hk, ih, Ne.symm hk]

theorem alookup_single {α : Type} (k : String) (v : α) (key : String) :
    alookup [(k, v)] key = if k = key then some v else none := by
  by_cases h : k = key <;> simp [alookup, h]

/-! Lemmas about the ingest loop of `UpdateSessions`. -/

theorem IngestSessions_mem (l : List SessionInfo)
    (acc : List (String × SessionInfo)) (det : String) :
    ∀ kv ∈ (IngestSessions l acc det).1,
      kv ∈ acc ∨ (kv.1 = kv.2.session_id ∧ kv.1 ≠ "") := by
  induction l generalizing acc det with
  | nil => intro kv h; exact Or.inl h
  | cons s rest ih =>
    intro kv h
    by_cases hs : s.session_id = ""
    · rw [IngestSessions, if_pos hs] at h
      exact ih _ _ kv h
    · rw [IngestSessions, if_neg hs] at h
      rcases ih _ _ kv h with hacc | hnew
      · by_cases hl : (alookup acc s.session_id).isSome
        · rw [if_pos hl] at hacc
          exact Or.inl hacc
        · rw [if_neg hl] at hacc
          rcases List.mem_append.mp hacc with h1 | h2
          · exact Or.inl h1
          · have : kv = (s.session_id, s) := by simpa using h2
            subst this
            exact Or.inr ⟨rfl, hs⟩
      · exact Or.inr hnew

theorem IngestSessions_lookup (l : List SessionInfo)
    (acc : List (String × SessionInfo)) (det : String) (key : String)
    (hkey : key ≠ "") :
    alookup (IngestSessions l acc det).1 key =
      (alookup acc key).orElse
        (fun _ => l.find? (fun s => s.session_id == key)) := by
  induction l generalizing acc det with
  | nil =>
    cases h : alookup acc key <;> simp [IngestSessions, Option.orElse, h]
  | cons s rest ih =>
    by_cases hs : s.session_id = ""
    · have hpred : (s.session_id == key) = false := by
        simp [hs]
        intro h
        exact hkey h.symm
      rw [IngestSessions, if_pos hs, ih, List.find?]
      rw [hpred]
    · by_cases hk : s.session_id = key
      · subst hk
        have hfind : List.find? (fun t => t.session_id == s.session_id) (s :: rest) = some s := by
          simp [List.find?]
        rw [IngestSessions, if_neg hs, ih, hfind]
        by_cases hl : (alookup acc s.session_id).isSome
        · rw [if_pos hl]
          obtain ⟨v, hv⟩ := Option.isSome_iff_exists.mp hl
          simp [hv, Option.orElse]
        · rw [if_neg hl]
          have hnone : alookup acc s.session_id = none :=
            Option.not_isSome_iff_eq_none.mp hl
          rw [alookup_append, hnone, alookup_single, if_pos rfl]
          simp [Option.orElse]
      · have hpred : (s.session_id == key) = false := by
          simp [hk]
        rw [IngestSessions, if_neg hs, ih, List.find?, hpred]
        by_cases hl : (alookup acc s.session_id).isSome
        · rw [if_pos hl]
        · rw [if_neg hl, alookup_append, alookup_single, if_neg hk]
          cases h : alookup acc key <;> simp [Option.orElse, h]

theorem IngestSessions_lookup_empty (l : List SessionInfo)
    (acc : List (String × SessionInfo)) (det : String) :
    alookup (IngestSessions l acc det).1 "" = alookup acc "" := by
  induction l generalizing acc det with
  | nil => rfl
  | cons s rest ih =>
    by_cases hs : s.session_id = ""
    · rw [IngestSessions, if_pos hs, ih]
    · rw [IngestSessions, if_neg hs, ih]
      by_cases hl : (alookup acc s.session_id).isSome
      · rw [if_pos hl]
      · rw [if_neg hl, alookup_append, alookup_single, if_neg hs]
        cases h : alookup acc "" <;> simp [Option.orElse, h]

theorem IngestSessions_keys_nodup (l : List SessionInfo)
    (acc : List (String × SessionInfo)) (det : String)
    (h : (acc.map Prod.fst).Nodup) :
    (((IngestSessions l acc det).1).map Prod.fst).Nodup := by
  induction l generalizing acc det with
  | nil => exact h
  | cons s rest ih =>
    by_cases hs : s.session_id = ""
    · rw [IngestSessions, if_pos hs]
      exact ih _ _ h
    · rw [IngestSessions, if_neg hs]
      by_cases hl : (alookup acc s.session_id).isSome
      · rw [if_pos hl]
        exact ih _ _ h
      · rw [if_neg hl]
        refine ih _ _ ?_
        have hnot : s.session_id ∉ acc.map Prod.fst := by
          intro hmem
          exact hl ((alookup_isSome_iff acc s.session_id).mpr hmem)
        simp [List.nodup_append, h, hnot]

theorem IngestSessions_detected_of_ne (l : List SessionInfo)
    (acc : List (String × SessionInfo)) (det : String) (h : det ≠ "") :
    (IngestSessions l acc det).2 = det := by
  induction l generalizing acc det with
  | nil => rfl
  | cons s rest ih =>
    by_cases hs : s.session_id = ""
    · rw [IngestSessions, if_pos hs, ih _ _ h]
    · rw [IngestSessions, if_neg hs]
      have hcond : ¬(s.is_active ∧ det = "") := fun hc => h hc.2
      rw [if_neg hcond, ih _ _ h]

theorem IngestSessions_detected (l : List SessionInfo)
    (acc : List (String × SessionInfo)) :
    (IngestSessions l acc "").2 =
      (Option.map (fun s => s.session_id)
        (l.find? (fun s => !(s.session_id == "") && s.is_active))).getD "" := by
  induction l generalizing acc with
  | nil => rfl
  | cons s rest ih =>
    by_cases hs : s.session_id = ""
    · have hpred : (!(s.session_id == "") && s.is_active) = false := by
        simp [hs]
      rw [IngestSessions, if_pos hs, List.find?, hpred, ih]
    · cases ha : s.is_active with
      | true =>
        have hpred : (!(s.session_id == "") && s.is_active) = true := by
          simp [hs, ha]
        rw [IngestSessions, if_neg hs, List.find?, hpred]
        have hcond : (s.is_active ∧ ("" : String) = "") := ⟨by rw [ha], rfl⟩
        rw [if_pos hcond]
        simp [IngestSessions_detected_of_ne _ _ _ hs]
      | false =>
        have hpred : (!(s.session_id == "") && s.is_active) = false := by
          simp [ha]
        rw [IngestSessions, if_neg hs, List.find?, hpred]
        have hcond : ¬(s.is_active ∧ ("" : String) = "") := by
          intro hc
          rw [ha] at hc
          exact Bool.false_ne_true hc.1
        rw [if_neg hcond, ih]

theorem IngestSessions_key_of_mem (l : List SessionInfo)
    (acc : List (String × SessionInfo)) (det : String) {s : SessionInfo}
    (hmem : s ∈ l) (hs : s.session_id ≠ "") :
    (alookup (IngestSessions l acc det).1 s.session_id).isSome := by
  rw [IngestSessions_lookup _ _ _ _ hs]
  cases h : alookup acc s.session_id with
  | some v => simp [Option.orElse]
  | none =>
    simp only [Option.orElse]
    have : (l.find? (fun t => t.session_id == s.session_id)).isSome := by
      rw [List.find?_isSome]
      exact ⟨s, hmem, by simp⟩
    simpa [Option.orElse] using this

/-! Structural lemmas about `UpdateSessions`. -/

theorem UpdateSessions_preferred (st : RegistryState) (l : List SessionInfo) :
    (UpdateSessions st l).1.preferred_session_id =
      (AutoSelectPreferred
        (ClearStalePreferred st.preferred_session_id (IngestSessions l [] "").1).1
        (IngestSessions l [] "").2 l).1 := rfl

theorem UpdateSessions_sessions (st : RegistryState) (l : List SessionInfo) :
    (UpdateSessions st l).1.sessions =
      (IngestSessions l [] "").1.map
        (fun kv =>
          (kv.1, { kv.2 with
            is_preferred := kv.1 == (UpdateSessions st l).1.preferred_session_id })) := rfl

theorem UpdateSessions_profiles (st : RegistryState) (l : List SessionInfo) :
    (UpdateSessions st l).1.profiles = st.profiles := rfl

theorem UpdateSessions_events (st : RegistryState) (l : List SessionInfo) :
    (UpdateSessions st l).2 =
      (ClearStalePreferred st.preferred_session_id (IngestSessions l [] "").1).2 ++
        (AutoSelectPreferred
          (ClearStalePreferred st.preferred_session_id (IngestSessions l [] "").1).1
          (IngestSessions l [] "").2 l).2 := rfl

/-! Well-formedness invariant of the session map: non-empty keys, keys equal
to the stored entry's `session_id`, and `is_preferred` flags derived from the
current preferred id. -/

def SessionsWF (st : RegistryState) : Prop :=
  ∀ kv ∈ st.sessions,
    kv.1 ≠ "" ∧ kv.2.session_id = kv.1 ∧
      kv.2.is_preferred = (kv.1 == st.preferred_session_id)

theorem SessionsWF_initState (profiles : List DeviceProfile)
    (preferred : String) (kv : List (String × String)) :
    SessionsWF (initState profiles preferred kv) := by
  intro entry h
  simp [initState] at h

theorem SessionsWF_UpdateSessions (st : RegistryState) (l : List SessionInfo) :
    SessionsWF (UpdateSessions st l).1 := by
  intro entry h
  rw [UpdateSessions_sessions] at h
  obtain ⟨kv0, hkv0, rfl⟩ := List.mem_map.mp h
  rcases IngestSessions_mem l [] "" kv0 hkv0 with hacc | hnew
  · simp at hacc
  · exact ⟨hnew.2, hnew.1.symm, rfl⟩

theorem SessionsWF_SetPreferredSession (st : RegistryState) (id : String)
    (hwf : SessionsWF st) : SessionsWF (SetPreferredSession st id).2.1 := by
  unfold SetPreferredSession
  cases hl : alookup st.sessions id with
  | none => exact hwf
  | some v =>
    intro entry h
    simp only at h
    obtain ⟨kv0, hkv0, rfl⟩ := List.mem_map.mp h
    obtain ⟨h1, h2, _⟩ := hwf kv0 hkv0
    exact ⟨h1, h2, rfl⟩

theorem SessionsWF_congr {st st' : RegistryState}
    (hs : st'.sessions = st.sessions)
    (hp : st'.preferred_session_id = st.preferred_session_id)
    (hwf : SessionsWF st) : SessionsWF st' := by
  intro entry h
  rw [hs] at h
  rw [hp]
  exact hwf entry h

theorem RemoveProfileByMac_unchanged (st : RegistryState) (mac : String) :
    (RemoveProfileByMac st mac).2.1.sessions = st.sessions ∧
      (RemoveProfileByMac st mac).2.1.preferred_session_id =
        st.preferred_session_id := by
  unfold RemoveProfileByMac
  by_cases h : (List.filter (fun p => p.mac_address != NormalizeMacAddress mac)
      st.profiles).length = st.profiles.length
  · simp [h]
  · simp [h]

theorem RemoveProfileById_unchanged (st : RegistryState) (id : String) :
    (RemoveProfileById st id).2.1.sessions = st.sessions ∧
      (RemoveProfileById st id).2.1.preferred_session_id =
        st.preferred_session_id := by
  unfold RemoveProfileById
  by_cases h : (List.filter (fun p => p.device_id != id)
      st.profiles).length = st.profiles.length
  · simp [h]
  · simp [h]

theorem SessionsWF_applyOp (st : RegistryState) (op : RegistryOp)
    (hwf : SessionsWF st) : SessionsWF (applyOp st op) := by
  cases op with
  | addOrUpdateProfile profile => exact SessionsWF_congr rfl rfl hwf
  | removeProfileByMac mac =>
    exact SessionsWF_congr (RemoveProfileByMac_unchanged st mac).1
      (RemoveProfileByMac_unchanged st mac).2 hwf
  | removeProfileById id =>
    exact SessionsWF_congr (RemoveProfileById_unchanged st id).1
      (RemoveProfileById_unchanged st id).2 hwf
  | updateSessions l => exact SessionsWF_UpdateSessions st l
  | setPreferredSession id => exact SessionsWF_SetPreferredSession st id hwf

theorem SessionsWF_runOps (st : RegistryState) (ops : List RegistryOp)
    (hwf : SessionsWF st) : SessionsWF (runOps st ops) := by
  induction ops generalizing st with
  | nil => exact hwf
  | cons op rest ih => exact ih _ (SessionsWF_applyOp st op hwf)

/-- C4: after any sequence of public operations on a freshly constructed
registry, each stored session's `is_preferred` flag is true exactly when its
`session_id` equals the registry's current preferred-session id (so all
flags are false when no preferred id is set), regardless of the
`is_preferred` values supplied by callers in the `UpdateSessions` input. -/
theorem C4_preferred_flag_invariant (profiles0 : List DeviceProfile)
    (pref0 : String) (store0 : List (String × String)) (ops : List RegistryOp) :
    ∀ entry ∈ (runOps (initState profiles0 pref0 store0) ops).sessions,
      entry.2.is_preferred =
        (entry.2.session_id ==
          (runOps (initState profiles0 pref0 store0) ops).preferred_session_id) := by
  intro entry h
  obtain ⟨h1, h2, h3⟩ :=
    SessionsWF_runOps _ ops (SessionsWF_initState profiles0 pref0 store0) entry h
  rw [h2]
  exact h3

/-- Witness for C4 at a concrete run: one `UpdateSessions` call whose input
entry carries `is_preferred := false` but is stored with the flag derived
from the auto-selected preferred id. -/
theorem C4_witness :
    (("a", ({ session_id := "a", is_active := true, is_preferred := true } : SessionInfo)).2.is_preferred =
      (("a", ({ session_id := "a", is_active := true, is_preferred := true } : SessionInfo)).2.session_id ==
        (runOps (initState [] "" [])
          [RegistryOp.updateSessions [{ session_id := "a", is_active := true }]]).preferred_session_id)) :=
  C4_preferred_flag_invariant [] "" []
    [RegistryOp.updateSessions [{ session_id := "a", is_active := true }]]
    ("a", { session_id := "a", is_active := true, is_preferred := true })
    (by decide)

/-- C10: after any sequence of public operations on a freshly constructed
registry the session map holds no entry with an empty key, `FindSession ""`
returns not-found, and `SetPreferredSession ""` returns false and leaves the
whole state unchanged, so the preferred id can never be explicitly cleared
through `SetPreferredSession`. -/
theorem C10_no_empty_session_key (profiles0 : List DeviceProfile)
    (pref0 : String) (store0 : List (String × String)) (ops : List RegistryOp) :
    (∀ entry ∈ (runOps (initState profiles0 pref0 store0) ops).sessions,
        entry.1 ≠ "") ∧
    FindSession (runOps (initState profiles0 pref0 store0) ops) "" = none ∧
    SetPreferredSession (runOps (initState profiles0 pref0 store0) ops) "" =
      (false, runOps (initState profiles0 pref0 store0) ops, []) := by
  have hwf := SessionsWF_runOps _ ops (SessionsWF_initState profiles0 pref0 store0)
  have hkeys : ∀ entry ∈ (runOps (initState profiles0 pref0 store0) ops).sessions,
      entry.1 ≠ "" := fun e h => (hwf e h).1
  have hnone : alookup (runOps (initState profiles0 pref0 store0) ops).sessions "" = none := by
    cases hl : alookup (runOps (initState profiles0 pref0 store0) ops).sessions "" with
    | none => rfl
    | some v => exact absurd rfl (hkeys _ (alookup_some_mem hl))
  refine ⟨hkeys, ?_, ?_⟩
  · simpa [FindSession] using hnone
  · simp [SetPreferredSession, hnone]

/-- Witness for C10 at a concrete run with one session present. -/
theorem C10_witness :
    FindSession (runOps (initState [] "" [])
      [RegistryOp.updateSessions [{ session_id := "a" }]]) "" = none := by
  have h := C10_no_empty_session_key [] "" []
    [RegistryOp.updateSessions [{ session_id := "a" }]]
  exact h.2.1

/-- C5: on any reachable state, `SetPreferredSession id` with an unknown id
returns false and leaves the whole registry state (preferred id, every
session's flag, and the persisted store) unchanged, performing no
persistence call; with a known id it returns true, sets the preferred id,
recomputes every session's `is_preferred` flag, and persists the new
preferred id under its key. -/
theorem C5_set_preferred_session_spec (profiles0 : List DeviceProfile)
    (pref0 : String) (store0 : List (String × String)) (ops : List RegistryOp)
    (id : String) :
    (alookup (runOps (initState profiles0 pref0 store0) ops).sessions id = none →
      SetPreferredSession (runOps (initState profiles0 pref0 store0) ops) id =
        (false, runOps (initState profiles0 pref0 store0) ops, [])) ∧
    (∀ v, alookup (runOps (initState profiles0 pref0 store0) ops).sessions id = some v →
      SetPreferredSession (runOps (initState profiles0 pref0 store0) ops) id =
        (true,
         { runOps (initState profiles0 pref0 store0) ops with
            sessions := (runOps (initState profiles0 pref0 store0) ops).sessions.map
              (fun entry => (entry.1, { entry.2 with is_preferred := entry.1 == id }))
            preferred_session_id := id
            kv := kvSet (runOps (initState profiles0 pref0 store0) ops).kv
              kPreferredSessionKey id },
         [PersistEvent.setString kPreferredSessionKey id])) := by
  constructor
  · intro h
    simp [SetPreferredSession, h]
  · intro v h
    have hwf := SessionsWF_runOps _ ops (SessionsWF_initState profiles0 pref0 store0)
    have hid : id ≠ "" := (hwf _ (alookup_some_mem h)).1
    have hev : PersistPreferredSessionEvent id =
        PersistEvent.setString kPreferredSessionKey id := by
      simp [PersistPreferredSessionEvent, hid]
    simp [SetPreferredSession, h, hev, applyEvents, applyEvent]

/-- Witness for C5 at a concrete run with one session `a`: the unknown id
`zz` fails and changes nothing, the known id `a` succeeds. -/
theorem C5_witness :
    (SetPreferredSession (runOps (initState [] "" [])
        [RegistryOp.updateSessions [{ session_id := "a" }]]) "zz" =
      (false, runOps (initState [] "" [])
        [RegistryOp.updateSessions [{ session_id := "a" }]], [])) ∧
    (SetPreferredSession (runOps (initState [] "" [])
        [RegistryOp.updateSessions [{ session_id := "a" }]]) "a").1 = true := by
  have h := C5_set_preferred_session_spec [] "" []
    [RegistryOp.updateSessions [{ session_id := "a" }]] "zz"
  have h2 := C5_set_preferred_session_spec [] "" []
    [RegistryOp.updateSessions [{ session_id := "a" }]] "a"
  refine ⟨h.1 (by decide), ?_⟩
  rw [h2.2 { session_id := "a", is_preferred := true } (by decide)]

/-! Flag recomputation helper lemmas. -/

theorem alookup_setflag (m : List (String × SessionInfo)) (pref key : String) :
    alookup (m.map (fun kv => (kv.1, { kv.2 with is_preferred := kv.1 == pref }))) key =
      (alookup m key).map (fun v => { v with is_preferred := key == pref }) := by
  induction m with
  | nil => rfl
  | cons kv rest ih =>
    by_cases h : kv.1 = key
    · simp [alookup, h]
    · simp [alookup, h, ih]

theorem setflag_keys (m : List (String × SessionInfo)) (pref : String) :
    (m.map (fun kv => (kv.1, { kv.2 with is_preferred := kv.1 == pref }))).map Prod.fst =
      m.map Prod.fst := by
  induction m with
  | nil => rfl
  | cons kv rest ih => simp [ih]

/-- Input list for C1: two entries sharing the non-empty session id `s`. -/
def c1DupInput : List SessionInfo :=
  [{ session_id := "s", label := "first" }, { session_id := "s", label := "second" }]

/-- C1 counterexample: on an input with duplicate id `s`, the stored entry
keeps the fields of the first duplicate (label `first`), while the last
input entry with that id carries label `second`; so the stored entry is not
the last such entry in input order, refuting last-wins. -/
theorem C1_counterexample :
    (Option.map (fun s => s.label)
      (alookup (UpdateSessions (initState [] "" []) c1DupInput).1.sessions "s") =
        some "first") ∧
    (Option.map (fun s => s.label) c1DupInput.getLast? = some "second") := by
  decide

/-- C1 (amended): for every input list, the resulting session map has
duplicate-free keys, no entry under the empty key, and for every non-empty
id stores exactly the first input entry carrying that id (none when no entry
carries it), with its `is_preferred` flag recomputed against the resulting
preferred id. -/
theorem C1_first_entry_wins (st : RegistryState) (l : List SessionInfo)
    (id : String) (hid : id ≠ "") :
    alookup (UpdateSessions st l).1.sessions id =
      (l.find? (fun s => s.session_id == id)).map
        (fun s => { s with
          is_preferred := id == (UpdateSessions st l).1.preferred_session_id }) ∧
    (((UpdateSessions st l).1.sessions).map Prod.fst).Nodup ∧
    alookup (UpdateSessions st l).1.sessions "" = none := by
  refine ⟨?_, ?_, ?_⟩
  · rw [UpdateSessions_sessions, alookup_setflag,
      IngestSessions_lookup _ _ _ _ hid]
    simp [alookup, Option.orElse]
  · rw [UpdateSessions_sessions, setflag_keys]
    exact IngestSessions_keys_nodup l [] "" (by simp)
  · rw [UpdateSessions_sessions, alookup_setflag, IngestSessions_lookup_empty]
    rfl

/-- Witness for C1 (amended) at the duplicate-id input: the stored entry for
`s` is the first duplicate with its flag recomputed. -/
theorem C1_witness :
    alookup (UpdateSessions (initState [] "" []) c1DupInput).1.sessions "s" =
      (c1DupInput.find? (fun s => s.session_id == "s")).map
        (fun s => { s with
          is_preferred :=
            "s" == (UpdateSessions (initState [] "" []) c1DupInput).1.preferred_session_id }) :=
  (C1_first_entry_wins (initState [] "" []) c1DupInput "s" (by decide)).1

theorem find?_pred {α : Type} {p : α → Bool} {l : List α} {a : α}
    (h : l.find? p = some a) : p a = true := by
  induction l with
  | nil => simp [List.find?] at h
  | cons x rest ih =>
    rw [List.find?] at h
    cases hx : p x with
    | true =>
      rw [hx] at h
      cases h
      exact hx
    | false =>
      rw [hx] at h
      exact ih h

/-- Reachable state for C3 whose preferred id is `x`. -/
def c3FirstCall : RegistryState :=
  (UpdateSessions (initState [] "" []) [{ session_id := "x" }]).1

/-- Input list for C3: the first entry with `is_active` true has an empty
session id, the second active entry has id `a`. -/
def c3Input : List SessionInfo :=
  [{ session_id := "", is_active := true },
   { session_id := "a", is_active := true }]

/-- C3 counterexample: preferred id `x` is stale for `c3Input`; the first
input entry with `is_active` true has session id `""`, yet the re-derived
preferred id is `a` — the first ACTIVE entry with a non-empty id — so the
claimed "id of the first input entry with is_active true" is wrong. -/
theorem C3_counterexample :
    c3FirstCall.preferred_session_id = "x" ∧
    Option.map (fun s => s.session_id) (c3Input.find? (fun s => s.is_active)) =
      some "" ∧
    (UpdateSessions c3FirstCall c3Input).1.preferred_session_id = "a" := by
  decide

/-- C3 (amended): when the currently-set non-empty preferred id is absent
from the new session map, the same `UpdateSessions` call re-derives the
preferred id as the id of the first input entry with a non-empty session id
and `is_active` true, else the session id of the first entry of the input
list in its original order (empty when the input is empty); the result is
never the stale id. -/
theorem C3_stale_preferred_reselected (st : RegistryState) (l : List SessionInfo)
    (h1 : st.preferred_session_id ≠ "")
    (h2 : alookup (IngestSessions l [] "").1 st.preferred_session_id = none) :
    ((UpdateSessions st l).1.preferred_session_id =
      match l.find? (fun s => !(s.session_id == "") && s.is_active) with
      | some s => s.session_id
      | none =>
        match l with
        | [] => ""
        | s :: _ => s.session_id) ∧
    (UpdateSessions st l).1.preferred_session_id ≠ st.preferred_session_id := by
  have hclear :
      (ClearStalePreferred st.preferred_session_id (IngestSessions l [] "").1).1 = "" := by
    simp [ClearStalePreferred, h1, h2]
  have hpref :
      (UpdateSessions st l).1.preferred_session_id =
        (AutoSelectPreferred "" (IngestSessions l [] "").2 l).1 := by
    rw [UpdateSessions_preferred, hclear]
  have hdet := IngestSessions_detected l []
  cases hfind : l.find? (fun s => !(s.session_id == "") && s.is_active) with
  | some s =>
    have hpred := find?_pred hfind
    have hs : s.session_id ≠ "" := by
      intro hempty
      simp [hempty] at hpred
    have hdet' : (IngestSessions l [] "").2 = s.session_id := by
      rw [hdet, hfind]
      rfl
    have hsel : (UpdateSessions st l).1.preferred_session_id = s.session_id := by
      rw [hpref, hdet']
      simp [AutoSelectPreferred, hs]
    constructor
    · rw [hsel]
    · rw [hsel]
      intro heq
      have hmem := List.mem_of_find?_eq_some hfind
      have hsome := IngestSessions_key_of_mem l [] "" hmem hs
      rw [heq, h2] at hsome
      simp at hsome
  | none =>
    have hdet' : (IngestSessions l [] "").2 = "" := by
      rw [hdet, hfind]
      rfl
    cases l with
    | nil =>
      constructor
      · rw [hpref, hdet']
        simp [AutoSelectPreferred]
      · rw [hpref, hdet']
        simp [AutoSelectPreferred]
        exact fun h => h1 h.symm
    | cons s rest =>
      have hsel : (UpdateSessions st (s :: rest)).1.preferred_session_id = s.session_id := by
        rw [hpref, hdet']
        simp [AutoSelectPreferred]
      constructor
      · rw [hsel]
      · rw [hsel]
        by_cases hs : s.session_id = ""
        · rw [hs]
          exact fun h => h1 h.symm
        · intro heq
          have hmem : s ∈ s :: rest := List.mem_cons_self s rest
          have hsome := IngestSessions_key_of_mem (s :: rest) [] "" hmem hs
          rw [heq, h2] at hsome
          simp at hsome

/-- Witness for C3 (amended) at the concrete stale-preferred scenario. -/
theorem C3_witness :
    (UpdateSessions c3FirstCall c3Input).1.preferred_session_id ≠
      c3FirstCall.preferred_session_id :=
  (C3_stale_preferred_reselected c3FirstCall c3Input (by decide) (by decide)).2

/-! The three-level sort order of `GetSessions`, stated as the spec words it:
preferred before non-preferred, then active before inactive, then ascending
session id. -/

def specSessionOrder (a b : SessionInfo) : Prop :=
  (a.is_preferred = true ∧ b.is_preferred = false) ∨
  (a.is_preferred = b.is_preferred ∧
    ((a.is_active = true ∧ b.is_active = false) ∨
     (a.is_active = b.is_active ∧ a.session_id ≤ b.session_id)))

theorem sessionLe_iff (a b : SessionInfo) :
    sessionLe a b ↔ specSessionOrder a b := by
  cases hap : a.is_preferred <;> cases hbp : b.is_preferred <;>
    cases haa : a.is_active <;> cases hba : b.is_active <;>
      simp [sessionLe, sessionLt, specSessionOrder, hap, hbp, haa, hba, not_lt]

theorem specSessionOrder_total (a b : SessionInfo) :
    specSessionOrder a b ∨ specSessionOrder b a := by
  unfold specSessionOrder
  cases hap : a.is_preferred <;> cases hbp : b.is_preferred <;>
    cases haa : a.is_active <;> cases hba : b.is_active <;> simp <;>
      exact le_total _ _

theorem specSessionOrder_trans (a b c : SessionInfo) :
    specSessionOrder a b → specSessionOrder b c → specSessionOrder a c := by
  intro h1 h2
  unfold specSessionOrder at h1 h2 ⊢
  rcases h1 with h1 | ⟨hp1, h1⟩
  · rcases h2 with h2 | ⟨hp2, h2⟩
    · exact absurd h2.1 (by rw [h1.2]; simp)
    · exact Or.inl ⟨h1.1, by rw [← hp2]; exact h1.2⟩
  · rcases h2 with h2 | ⟨hp2, h2⟩
    · exact Or.inl ⟨by rw [hp1]; exact h2.1, h2.2⟩
    · refine Or.inr ⟨hp1.trans hp2, ?_⟩
      rcases h1 with h1 | ⟨ha1, h1⟩
      · rcases h2 with h2 | ⟨ha2, h2⟩
        · exact absurd h2.1 (by rw [h1.2]; simp)
        · exact Or.inl ⟨h1.1, by rw [← ha2]; exact h1.2⟩
      · rcases h2 with h2 | ⟨ha2, h2⟩
        · exact Or.inl ⟨by rw [ha1]; exact h2.1, h2.2⟩
        · exact Or.inr ⟨ha1.trans ha2, le_trans h1 h2⟩

instance : IsTotal SessionInfo sessionLe :=
  ⟨fun a b => by
    rw [sessionLe_iff, sessionLe_iff]
    exact specSessionOrder_total a b⟩

instance : IsTrans SessionInfo sessionLe :=
  ⟨fun a b c h1 h2 =>
    (sessionLe_iff a c).mpr
      (specSessionOrder_trans a b c ((sessionLe_iff a b).mp h1)
        ((sessionLe_iff b c).mp h2))⟩

/-- Stored sessions of the claim's example: `b` active, `a` plain, `c`
preferred. -/
def c7ExampleState : RegistryState :=
  { profiles := []
    sessions :=
      [("b", { session_id := "b", is_active := true }),
       ("a", { session_id := "a" }),
       ("c", { session_id := "c", is_preferred := true })]
    preferred_session_id := "c"
    kv := [] }

/-- C7: `GetSessions` returns a permutation of the stored sessions that is
pairwise ordered by the three-level key — preferred before non-preferred,
then active before inactive, then ascending session id — and on the example
state it returns the ids `[c, b, a]`. -/
theorem C7_get_sessions_sorted :
    (∀ st : RegistryState,
      (GetSessions st).Perm (st.sessions.map Prod.snd) ∧
      List.Pairwise specSessionOrder (GetSessions st)) ∧
    (GetSessions c7ExampleState).map (fun s => s.session_id) = ["c", "b", "a"] := by
  constructor
  · intro st
    constructor
    · exact List.perm_insertionSort sessionLe _
    · have hs := List.sorted_insertionSort sessionLe (st.sessions.map Prod.snd)
      exact List.Pairwise.imp (fun h => (sessionLe_iff _ _).mp h) hs
  · decide

/-- Add sequence whose final upsert is matched by device id against an
empty-MAC profile while another profile carries the same MAC. -/
def c2IdOps : List RegistryOp :=
  [RegistryOp.addOrUpdateProfile { device_id := "x", mac_address := "AA" },
   RegistryOp.addOrUpdateProfile { device_id := "d", mac_address := "" },
   RegistryOp.addOrUpdateProfile { device_id := "d", mac_address := "AA" },
   RegistryOp.addOrUpdateProfile { device_id := "d", mac_address := "" }]

/-- Add sequence whose final upsert is matched by device id against an
empty-MAC profile, leaving its MAC duplicated elsewhere. -/
def c2MacOps : List RegistryOp :=
  [RegistryOp.addOrUpdateProfile { device_id := "d", mac_address := "" },
   RegistryOp.addOrUpdateProfile { device_id := "x", mac_address := "AA" },
   RegistryOp.addOrUpdateProfile { device_id := "d", mac_address := "AA" }]

/-- C2 fails on the code: the match predicate prefers a device-id match on an
empty-MAC profile even when another stored profile carries the incoming MAC,
so both halves of the claimed invariant are violated from the empty store.
After `c2IdOps` two stored profiles have an empty MAC and device id `d`;
after `c2MacOps` two stored profiles share the non-empty MAC `AA`. -/
theorem C2_code_bug_duplicate_profiles :
    ((runOps (initState [] "" []) c2IdOps).profiles.filter
        (fun q => q.mac_address == "" && q.device_id == "d")).length = 2 ∧
    ((runOps (initState [] "" []) c2MacOps).profiles.filter
        (fun q => q.mac_address == "AA")).length = 2 := by
  decide

/-! Upsert helper lemmas for C6. -/

theorem upsertProfile_no_match (l : List DeviceProfile) (n : DeviceProfile)
    (h : ∀ q ∈ l, profileMatches n q = false) : upsertProfile l n = l ++ [n] := by
  induction l with
  | nil => rfl
  | cons p rest ih =>
    rw [upsertProfile, h p (List.mem_cons_self p rest)]
    simp only [Bool.false_eq_true, if_false, List.cons_append, List.cons.injEq, true_and]
    exact ih (fun q hq => h q (List.mem_cons_of_mem p hq))

theorem profileMatches_self (n : DeviceProfile)
    (h : n.mac_address ≠ "" ∨ n.device_id ≠ "") : profileMatches n n = true := by
  unfold profileMatches
  rcases h with h | h
  · rw [if_pos ⟨h, h⟩]
    simp
  · by_cases hm : n.mac_address ≠ ""
    · rw [if_pos ⟨hm, hm⟩]
      simp
    · rw [if_neg (fun hc => hm hc.1), if_pos ⟨h, h⟩]
      simp

theorem upsertProfile_append_self (l : List DeviceProfile) (n : DeviceProfile)
    (hl : ∀ q ∈ l, profileMatches n q = false)
    (hself : profileMatches n n = true) :
    upsertProfile (l ++ [n]) n = l ++ [n] := by
  induction l with
  | nil => simp [upsertProfile, hself]
  | cons p rest ih =>
    rw [List.cons_append, upsertProfile, hl p (List.mem_cons_self p rest)]
    simp only [Bool.false_eq_true, if_false, List.cons.injEq, true_and]
    exact ih (fun q hq => hl q (List.mem_cons_of_mem p hq))

/-- Identifier-less profile used by the C6 counterexample. -/
def c6Profile : DeviceProfile := { label := "L" }

/-- Store after adding the identifier-less profile twice from empty. -/
def c6State : RegistryState :=
  (AddOrUpdateProfile
    (AddOrUpdateProfile (initState [] "" []) c6Profile).2.1 c6Profile).2.1

/-- C6 counterexample: adding an identifier-less profile (empty MAC and
device id) twice appends two copies — zero stored profiles match it under
the upsert predicate and two are field-for-field equal to it — so under
either reading there is not "exactly one" stored profile for it. -/
theorem C6_counterexample :
    (c6State.profiles.filter
        (fun q => profileMatches (NormalizeProfile c6Profile) q)).length = 0 ∧
    (c6State.profiles.filter (fun q => q == c6Profile)).length = 2 := by
  decide

/-- C6 (amended): when the profile carries an identifying field (non-empty
normalized MAC or non-empty device id), adding it twice to a store with no
profile matching it leaves exactly one stored profile matching it, and every
stored match is field-for-field the normalization of the argument (hence the
argument itself whenever its MAC is already normalized). -/
theorem C6_upsert_idempotent (st : RegistryState) (p : DeviceProfile)
    (hid : (NormalizeProfile p).mac_address ≠ "" ∨ (NormalizeProfile p).device_id ≠ "")
    (hnot : ∀ q ∈ st.profiles, profileMatches (NormalizeProfile p) q = false) :
    ((AddOrUpdateProfile (AddOrUpdateProfile st p).2.1 p).2.1.profiles.filter
        (fun q => profileMatches (NormalizeProfile p) q)).length = 1 ∧
    ∀ q ∈ (AddOrUpdateProfile (AddOrUpdateProfile st p).2.1 p).2.1.profiles,
      profileMatches (NormalizeProfile p) q = true → q = NormalizeProfile p := by
  have hself := profileMatches_self (NormalizeProfile p) hid
  have h1 : (AddOrUpdateProfile st p).2.1.profiles =
      st.profiles ++ [NormalizeProfile p] := by
    simp [AddOrUpdateProfile, upsertProfile_no_match st.profiles _ hnot]
  have h2 : (AddOrUpdateProfile (AddOrUpdateProfile st p).2.1 p).2.1.profiles =
      st.profiles ++ [NormalizeProfile p] := by
    simp only [AddOrUpdateProfile]
    rw [upsertProfile_no_match st.profiles _ hnot,
      upsertProfile_append_self st.profiles _ hnot hself]
  rw [h2]
  constructor
  · rw [List.filter_append]
    have hz : st.profiles.filter (fun q => profileMatches (NormalizeProfile p) q) = [] := by
      rw [List.filter_eq_nil]
      intro q hq
      rw [hnot q hq]
      simp
    rw [hz]
    simp [hself]
  · intro q hq hmatch
    rcases List.mem_append.mp hq with h | h
    · rw [hnot q h] at hmatch
      exact absurd hmatch (by simp)
    · simpa using h

/-- Witness for C6 (amended): a profile carrying a device id, added twice to
the empty store. -/
theorem C6_witness :
    ((AddOrUpdateProfile
        (AddOrUpdateProfile (initState [] "" []) { device_id := "d" }).2.1
        { device_id := "d" }).2.1.profiles.filter
      (fun q => profileMatches (NormalizeProfile { device_id := "d" }) q)).length = 1 :=
  (C6_upsert_idempotent (initState [] "" []) { device_id := "d" }
    (by decide) (by decide)).1

/-- Tests whether a persistence call is a `SetString` on the given key. -/
def isSetStringOn (key : String) : PersistEvent → Bool
  | PersistEvent.setString k _ => k == key
  | _ => false

/-- Profile of the C8 counterexample. -/
def c8Profile : DeviceProfile := { device_id := "d" }

/-- Store after one upsert of the C8 profile. -/
def c8State : RegistryState :=
  (AddOrUpdateProfile (initState [] "" []) c8Profile).2.1

/-- C8 counterexample: a second identical upsert leaves the profile list and
the preferred id unchanged, yet still performs a `SetString` write of the
profiles key. -/
theorem C8_counterexample :
    (AddOrUpdateProfile c8State c8Profile).2.1.profiles = c8State.profiles ∧
    (AddOrUpdateProfile c8State c8Profile).2.1.preferred_session_id =
      c8State.preferred_session_id ∧
    (AddOrUpdateProfile c8State c8Profile).2.2.map (isSetStringOn kProfilesKey) =
      [true] := by
  decide

/-- First component of auto-selection from an empty preferred id. -/
theorem AutoSelectPreferred_fst (det : String) (l : List SessionInfo) :
    (AutoSelectPreferred "" det l).1 =
      if det = "" then
        (match l with
         | [] => ""
         | s :: _ => s.session_id)
      else det := by
  by_cases hd : det = ""
  · simp [AutoSelectPreferred, hd]
  · simp [AutoSelectPreferred, hd]

/-- Auto-selection from an empty preferred id that ends empty persists
nothing. -/
theorem AutoSelectPreferred_snd_nil (det : String) (l : List SessionInfo)
    (h : (AutoSelectPreferred "" det l).1 = "") :
    (AutoSelectPreferred "" det l).2 = [] := by
  by_cases hd : det = ""
  · subst hd
    cases l with
    | nil => rfl
    | cons s rest =>
      have h' : s.session_id = "" := by
        rw [AutoSelectPreferred_fst, if_pos rfl] at h
        exact h
      simp [AutoSelectPreferred, h']
  · have h' : det = "" := by
      rw [AutoSelectPreferred_fst, if_neg hd] at h
      exact h
    exact absurd h' hd

/-- Auto-selection never returns a stale preferred id that is absent from
the newly built session map. -/
theorem autoselect_ne_stale (pref : String) (l : List SessionInfo)
    (h1 : pref ≠ "")
    (h2 : alookup (IngestSessions l [] "").1 pref = none) :
    (AutoSelectPreferred "" (IngestSessions l [] "").2 l).1 ≠ pref := by
  have hdet := IngestSessions_detected l []
  cases hfind : l.find? (fun s => !(s.session_id == "") && s.is_active) with
  | some s =>
    have hpred := find?_pred hfind
    have hs : s.session_id ≠ "" := by
      intro hempty
      simp [hempty] at hpred
    have hdet' : (IngestSessions l [] "").2 = s.session_id := by
      rw [hdet, hfind]
      rfl
    rw [hdet', AutoSelectPreferred_fst, if_neg hs]
    intro heq
    have hsome := IngestSessions_key_of_mem l [] ""
      (List.mem_of_find?_eq_some hfind) hs
    rw [heq, h2] at hsome
    simp at hsome
  | none =>
    have hdet' : (IngestSessions l [] "").2 = "" := by
      rw [hdet, hfind]
      rfl
    rw [hdet', AutoSelectPreferred_fst, if_pos rfl]
    cases l with
    | nil => exact fun h => h1 h.symm
    | cons s rest =>
      show s.session_id ≠ pref
      by_cases hs : s.session_id = ""
      · rw [hs]
        exact fun h => h1 h.symm
      · intro heq
        have hsome := IngestSessions_key_of_mem (s :: rest) [] ""
          (List.mem_cons_self s rest) hs
        rw [heq, h2] at hsome
        simp at hsome

/-- C8 (amended): `RemoveProfileByMac`, `RemoveProfileById` and
`UpdateSessions` perform persistence calls only when they changed the
profile list or the preferred id, and a failed `SetPreferredSession`
performs none; `AddOrUpdateProfile` however always performs exactly one
`SetString` write of the profiles key, even when the stored list is
unchanged. -/
theorem C8_persist_only_on_change :
    (∀ (st : RegistryState) (mac : String),
      (RemoveProfileByMac st mac).2.1.profiles = st.profiles →
        (RemoveProfileByMac st mac).2.2 = []) ∧
    (∀ (st : RegistryState) (id : String),
      (RemoveProfileById st id).2.1.profiles = st.profiles →
        (RemoveProfileById st id).2.2 = []) ∧
    (∀ (st : RegistryState) (l : List SessionInfo),
      (UpdateSessions st l).1.preferred_session_id = st.preferred_session_id →
        (UpdateSessions st l).2 = []) ∧
    (∀ (st : RegistryState) (id : String),
      (SetPreferredSession st id).1 = false →
        (SetPreferredSession st id).2.2 = []) ∧
    (∀ (st : RegistryState) (p : DeviceProfile),
      (AddOrUpdateProfile st p).2.2.map (isSetStringOn kProfilesKey) = [true]) := by
  refine ⟨?_, ?_, ?_, ?_, ?_⟩
  · intro st mac h
    by_cases hc : (List.filter (fun p => p.mac_address != NormalizeMacAddress mac)
        st.profiles).length = st.profiles.length
    · simp [RemoveProfileByMac, hc]
    · exfalso
      apply hc
      have hp : (RemoveProfileByMac st mac).2.1.profiles =
          List.filter (fun p => p.mac_address != NormalizeMacAddress mac) st.profiles := by
        simp [RemoveProfileByMac, hc]
      rw [hp] at h
      rw [h]
  · intro st id h
    by_cases hc : (List.filter (fun p => p.device_id != id)
        st.profiles).length = st.profiles.length
    · simp [RemoveProfileById, hc]
    · exfalso
      apply hc
      have hp : (RemoveProfileById st id).2.1.profiles =
          List.filter (fun p => p.device_id != id) st.profiles := by
        simp [RemoveProfileById, hc]
      rw [hp] at h
      rw [h]
  · intro st l h
    rw [UpdateSessions_events]
    by_cases hc : st.preferred_session_id ≠ "" ∧
        alookup (IngestSessions l [] "").1 st.preferred_session_id = none
    · exfalso
      have hclear :
          (ClearStalePreferred st.preferred_session_id (IngestSessions l [] "").1).1 = "" := by
        simp [ClearStalePreferred, hc.1, hc.2]
      rw [UpdateSessions_preferred, hclear] at h
      exact autoselect_ne_stale st.preferred_session_id l hc.1 hc.2 h
    · have hclear2 :
          ClearStalePreferred st.preferred_session_id (IngestSessions l [] "").1 =
            (st.preferred_session_id, []) := by
        simp [ClearStalePreferred, hc]
      rw [hclear2]
      simp only [List.nil_append]
      by_cases hp : st.preferred_session_id = ""
      · rw [UpdateSessions_preferred, hclear2] at h
        rw [hp] at h ⊢
        exact AutoSelectPreferred_snd_nil _ _ h
      · simp [AutoSelectPreferred, hp]
  · intro st id h
    cases hl : alookup st.sessions id with
    | none => simp [SetPreferredSession, hl]
    | some v => simp [SetPreferredSession, hl] at h
  · intro st p
    simp [AddOrUpdateProfile, PersistProfilesEvent, isSetStringOn]

/-- Witness for C8 (amended) at concrete operations: a no-op removal on the
empty store writes nothing; an upsert writes exactly one profiles-key
`SetString`. -/
theorem C8_witness :
    (RemoveProfileByMac (initState [] "" []) "AA").2.2 = [] ∧
    (AddOrUpdateProfile (initState [] "" []) { device_id := "d" }).2.2.map
      (isSetStringOn kProfilesKey) = [true] := by
  have h := C8_persist_only_on_change
  exact ⟨h.1 (initState [] "" []) "AA" (by decide),
    h.2.2.2.2 (initState [] "" []) { device_id := "d" }⟩

/-- C9: on startup load, an empty stored value or an unparsable root (the
parse oracle returns none) yields the empty profile set without any error
propagation, and a parsable array root yields exactly one profile per object
element with non-object elements skipped — the loaded set never partially
recovers from a malformed root. -/
theorem C9_load_profiles (parse : String → Option Json) (stored : String) :
    (stored = "" → LoadProfiles parse stored = []) ∧
    (parse stored = none → LoadProfiles parse stored = []) ∧
    (∀ items : List Json, stored ≠ "" → parse stored = some (Json.arr items) →
      LoadProfiles parse stored =
        items.filterMap (fun item =>
          match item with
          | Json.obj fields => some (ParseProfile fields)
          | _ => none)) := by
  refine ⟨?_, ?_, ?_⟩
  · intro h
    simp [LoadProfiles, h]
  · intro h
    by_cases hs : stored = ""
    · simp [LoadProfiles, hs]
    · simp [LoadProfiles, hs, h]
  · intro items hs hp
    simp [LoadProfiles, hs, hp]

/-- Parse oracle for the C9 witness: one well-formed stored string mapping
to an array with a non-object element and an object element; anything else
is unparsable. -/
def c9Parse : String → Option Json := fun s =>
  if s = "good" then
    some (Json.arr [Json.num 3, Json.obj [("device_id", Json.str "d")]])
  else none

/-- Witness for C9 at the concrete oracle: the literal `not json` loads as
the empty set, and the array root loads one profile for its object element,
skipping the number. -/
theorem C9_witness :
    LoadProfiles c9Parse "not json" = [] ∧
    LoadProfiles c9Parse "good" =
      [Json.num 3, Json.obj [("device_id", Json.str "d")]].filterMap
        (fun item =>
          match item with
          | Json.obj fields => some (ParseProfile fields)
          | _ => none) := by
  have h1 := C9_load_profiles c9Parse "not json"
  have h2 := C9_load_profiles c9Parse "good"
  exact ⟨h1.2.1 rfl,
    h2.2.2 [Json.num 3, Json.obj [("device_id", Json.str "d")]]
      (by decide) rfl⟩
